import Mathlib

/-!
Shallow embedding of the house-price prediction web application (app.py).

Python floats are modelled by `Val`: either `nan` or an exact rational
number.  IEEE comparison semantics for the operations the code uses are
kept: any comparison involving `nan` is false, and arithmetic involving
`nan` yields `nan`.  Exact rational arithmetic stands in for binary
floating point, matching the algorithm-level statements of the spec.

The mutable module-level globals `loaded_model`, `model_metadata` and
`model_info` become an explicit `AppState` record threaded through the
functions.  File-system and deserialization effects (joblib.load,
pickle.load, os.path.exists, json.load) become an `FS` record of
oracles, so that a load run is a pure function of the oracles; a Python
exception raised by one of these calls is an `Except.error` carrying
the exception message `str(e)`.
-/

/-- Python float value: NaN or an exact rational. -/
inductive Val where
  | nan : Val
  | num : ℚ → Val
deriving DecidableEq, Repr

/-- IEEE-style comparison used by the validation check `value <= 0`:
any comparison with NaN is false. -/
def Val.le : Val → Val → Bool
  | Val.num a, Val.num b => decide (a ≤ b)
  | _, _ => false

/-- Subtraction with NaN propagation. -/
def Val.sub : Val → Val → Val
  | Val.num a, Val.num b => Val.num (a - b)
  | _, _ => Val.nan

/-- Division with NaN propagation (only applied with a positive divisor
in this development). -/
def Val.div : Val → Val → Val
  | Val.num a, Val.num b => Val.num (a / b)
  | _, _ => Val.nan

/-- Addition with NaN propagation. -/
def Val.add : Val → Val → Val
  | Val.num a, Val.num b => Val.num (a + b)
  | _, _ => Val.nan

/-- Multiplication with NaN propagation (no IEEE 0 * inf subtlety arises:
all operands are finite or NaN). -/
def Val.mul : Val → Val → Val
  | Val.num a, Val.num b => Val.num (a * b)
  | _, _ => Val.nan

/-- Absolute value with NaN propagation. -/
def Val.abs : Val → Val
  | Val.num a => Val.num |a|
  | Val.nan => Val.nan

/-- The opaque trained regression artifact.  The repository only ever
loads scikit-learn LinearRegression models over the three features
(app.py line 63 records the type as such), so the artifact is a linear
map: coefficients for square footage, bedrooms, bathrooms, plus an
intercept. -/
structure Model where
  c1 : ℚ
  c2 : ℚ
  c3 : ℚ
  intercept : ℚ
deriving DecidableEq, Repr

/-- One call of `loaded_model.predict([[sq, bd, bt]])[0]`. -/
def Model.predict (m : Model) (sq bd bt : Val) : Val :=
  (((sq.mul (Val.num m.c1)).add (bd.mul (Val.num m.c2))).add
    (bt.mul (Val.num m.c3))).add (Val.num m.intercept)

/-- Per-feature training statistics from the metadata JSON
(`feature_ranges[feature]` with keys min, max, mean, std). -/
structure FeatureStats where
  min : ℚ
  max : ℚ
  mean : ℚ
  std : ℚ
deriving DecidableEq, Repr

/-- The metadata JSON document (`model_metadata` global once parsed):
an optional feature_ranges table and optional aggregate quality
metrics, each absent when the JSON lacks the key. -/
structure ModelMetadata where
  feature_ranges : Option (List (String × FeatureStats))
  r2_score : Option ℚ
  rmse : Option ℚ
  mae : Option ℚ
  training_samples : Option ℤ
deriving DecidableEq, Repr

/-- The `model_info` dict built at app.py lines 59-73.  The metric
fields are populated from the metadata when metadata was loaded and
stay absent otherwise. -/
structure ModelInfo where
  model_path : String
  metadata_path : Option String
  loaded_at : String
  model_type : String
  features : List String
  r2_score : Option ℚ := none
  rmse : Option ℚ := none
  mae : Option ℚ := none
  training_samples : Option ℤ := none
deriving DecidableEq, Repr

/-- The three module-level globals of app.py lines 27-29. -/
structure AppState where
  loaded_model : Option Model
  model_metadata : Option ModelMetadata
  model_info : Option ModelInfo
deriving DecidableEq, Repr

/-- The state at interpreter start: all three globals are None. -/
def emptyState : AppState :=
  { loaded_model := none, model_metadata := none, model_info := none }

/-- Oracles for the effectful calls made by `load_model_from_file`.
An `Except.error s` models the call raising an exception whose
`str(e)` is `s`. -/
structure FS where
  joblib_load : String → Except String Model
  pickle_load : String → Except String Model
  path_exists : String → Bool
  json_load : String → Except String ModelMetadata

/-- Lookup `ranges[feature]`, i.e. the `if feature in ranges` test of
app.py line 128 followed by the key accesses. -/
def lookupStat (ranges : List (String × FeatureStats)) (feature : String) :
    Option FeatureStats :=
  (ranges.find? (fun p => p.1 == feature)).map (fun p => p.2)

/-- Z-score of app.py line 135:
`abs((value - mean_val) / std_val) if std_val > 0 else 0`. -/
def z_score (value : Val) (mean_val std_val : ℚ) : Val :=
  if 0 < std_val then
    ((value.sub (Val.num mean_val)).div (Val.num std_val)).abs
  else
    Val.num 0

/-- Point score from the z-score threshold chain of app.py
lines 138-145. -/
def confidence_point (z : Val) : ℚ :=
  if z.le (Val.num 1) then 9/10
  else if z.le (Val.num 2) then 7/10
  else if z.le (Val.num 3) then 5/10
  else 3/10

/-- The function `calculate_confidence` of app.py lines 115-160.  The
guard `if not model_metadata or 'feature_ranges' not in model_metadata`
becomes the two outer matches; the loop over
`zip(features, values)` appending a point score when the feature is in
`ranges` becomes a `filterMap`. -/
def calculate_confidence (model_metadata : Option ModelMetadata)
    (square_footage bedrooms total_bathrooms : Val) : String :=
  match model_metadata with
  | none => "Unknown"
  | some md =>
    match md.feature_ranges with
    | none => "Unknown"
    | some ranges =>
      let features := ["Square_Footage", "Bedrooms", "Total_Bathrooms"]
      let values := [square_footage, bedrooms, total_bathrooms]
      let confidence_scores := (features.zip values).filterMap
        (fun fv => (lookupStat ranges fv.1).map
          (fun stats => confidence_point (z_score fv.2 stats.mean stats.std)))
      if confidence_scores = [] then "Unknown"
      else
        let avg := confidence_scores.sum / (confidence_scores.length : ℚ)
        if avg ≥ 8/10 then "High"
        else if avg ≥ 6/10 then "Medium"
        else "Low"

/-- Round a rational to the nearest integer, ties to even, the rounding
used by Python float formatting (idealized to exact arithmetic). -/
def roundHalfEven (q : ℚ) : ℤ :=
  let f := ⌊q⌋
  let r := q - (f : ℚ)
  if r < 1/2 then f
  else if 1/2 < r then f + 1
  else if f % 2 = 0 then f else f + 1

/-- Insert a comma after every three characters of a reversed digit
list (helper for the thousands separators of the `,` format flag). -/
def insertCommasAux : List Char → List Char
  | a :: b :: c :: d :: rest => a :: b :: c :: ',' :: insertCommasAux (d :: rest)
  | l => l

/-- Decimal representation of a natural number with thousands
separators. -/
def commaFormat (n : ℕ) : String :=
  String.mk (insertCommasAux (Nat.toDigits 10 n).reverse).reverse

/-- Two-digit zero-padded decimal representation of n < 100. -/
def twoDigits (n : ℕ) : String :=
  if n < 10 then "0" ++ toString n else toString n

/-- Python format `f"{q:,.2f}"` on an exact rational: round to two
decimals (half to even) and group the integer part in threes. -/
def pyFormat2f (q : ℚ) : String :=
  let sign := if q < 0 then "-" else ""
  let n : ℕ := (roundHalfEven (|q| * 100)).toNat
  sign ++ commaFormat (n / 100) ++ "." ++ twoDigits (n % 100)

/-- The currency string of app.py line 100: `f"${prediction:,.2f}"`.
Python renders a NaN float as `nan` under this format. -/
def formatCurrency : Val → String
  | Val.nan => "$nan"
  | Val.num q => "$" ++ pyFormat2f q

/-- The result dict of app.py lines 98-107. -/
structure PredictionResult where
  predicted_price : Val
  formatted_price : String
  confidence : String
  inputs : Val × Val × Val
deriving DecidableEq, Repr

/-- The function `predict_price` of app.py lines 81-113.  The Python
return convention `(result, error)` with exactly one side set is kept
as a pair of options. -/
def predict_price (st : AppState) (square_footage bedrooms total_bathrooms : Val) :
    Option PredictionResult × Option String :=
  match st.loaded_model with
  | none => (none, some "No model loaded. Please load a model first.")
  | some model =>
    if square_footage.le (Val.num 0) || bedrooms.le (Val.num 0)
        || total_bathrooms.le (Val.num 0) then
      (none, some "All values must be positive numbers.")
    else
      let prediction := model.predict square_footage bedrooms total_bathrooms
      let confidence := calculate_confidence st.model_metadata
        square_footage bedrooms total_bathrooms
      (some { predicted_price := prediction,
              formatted_price := formatCurrency prediction,
              confidence := confidence,
              inputs := (square_footage, bedrooms, total_bathrooms) }, none)

/-- Python `s.endswith(post)`: a suffix test on the character
sequences. -/
def endswith (s post : String) : Bool :=
  List.isSuffixOf post.data s.data

/-- The extension dispatch of app.py lines 41-49: joblib for .joblib,
pickle for .pkl, otherwise `ValueError("Unsupported model file format.
Use .joblib or .pkl")`. -/
def deserialize (fs : FS) (model_path : String) : Except String Model :=
  if endswith model_path ".joblib" then fs.joblib_load model_path
  else if endswith model_path ".pkl" then fs.pickle_load model_path
  else Except.error "Unsupported model file format. Use .joblib or .pkl"

/-- Build the `model_info` dict of app.py lines 59-73 from the state
reached after the model and metadata steps. -/
def makeModelInfo (st : AppState) (model_path : String)
    (metadata_path : Option String) (now : String) : ModelInfo :=
  let base : ModelInfo :=
    { model_path := model_path
      metadata_path := metadata_path
      loaded_at := now
      model_type := "LinearRegression"
      features := ["Square_Footage", "Bedrooms", "Total_Bathrooms"] }
  match st.model_metadata with
  | some md =>
    { base with r2_score := md.r2_score, rmse := md.rmse, mae := md.mae,
                training_samples := md.training_samples }
  | none => base

/-- The function `load_model_from_file` of app.py lines 35-79.  Returns
the state of the globals after the call together with the Python return
value `(success, message)`.  Mutations already performed before an
exception persist, exactly as with Python globals: in particular a
json.load failure leaves the freshly assigned `loaded_model` in place
while `model_info` is never regenerated. -/
def load_model_from_file (fs : FS) (now : String) (st : AppState)
    (model_path : String) (metadata_path : Option String) :
    AppState × Bool × String :=
  match deserialize fs model_path with
  | Except.error e => (st, false, "Error loading model: " ++ e)
  | Except.ok m =>
    let st1 : AppState := { st with loaded_model := some m, model_metadata := none }
    match metadata_path with
    | some mp =>
      if fs.path_exists mp then
        match fs.json_load mp with
        | Except.error e => (st1, false, "Error loading model: " ++ e)
        | Except.ok md =>
          let st2 : AppState := { st1 with model_metadata := some md }
          ({ st2 with model_info := some (makeModelInfo st2 model_path metadata_path now) },
           true, "Model loaded successfully!")
      else
        ({ st1 with model_info := some (makeModelInfo st1 model_path metadata_path now) },
         true, "Model loaded successfully!")
    | none =>
      ({ st1 with model_info := some (makeModelInfo st1 model_path metadata_path now) },
       true, "Model loaded successfully!")

/-- The endpoint `api_model_info` of app.py lines 307-317: a failure
flag when no model is loaded, otherwise the current info and
metadata. -/
def api_model_info (st : AppState) : Bool × Option ModelInfo × Option ModelMetadata :=
  match st.loaded_model with
  | none => (false, none, none)
  | some _ => (true, st.model_info, st.model_metadata)

/-!
Spec-side definitions.  These follow the wording of the specification's
confidence-heuristic algorithm (spec.md section 4.3) rather than the
code, so that `calculate_confidence` can be proved to refine them.
-/

/-- Spec wording: the absolute z-score `|value - mean| / std`, with the
z-score taken as 0 when std is not positive. -/
def spec_z_score (value mean std : ℚ) : ℚ :=
  if 0 < std then |value - mean| / std else 0

/-- Spec wording: fixed thresholds z≤1 → 0.9, z≤2 → 0.7, z≤3 → 0.5,
else 0.3. -/
def spec_point (z : ℚ) : ℚ :=
  if z ≤ 1 then 9/10
  else if z ≤ 2 then 7/10
  else if z ≤ 3 then 5/10
  else 3/10

/-- Spec wording: average the point scores, then ≥0.8 → High,
≥0.6 → Medium, otherwise Low; Unknown when no feature had usable
statistics. -/
def spec_label (scores : List ℚ) : String :=
  if scores = [] then "Unknown"
  else
    let avg := scores.sum / (scores.length : ℚ)
    if 8/10 ≤ avg then "High"
    else if 6/10 ≤ avg then "Medium"
    else "Low"

/-- Spec wording of the whole heuristic over the three fixed features,
for numeric (non-NaN) inputs. -/
def spec_confidence (ranges : List (String × FeatureStats))
    (square_footage bedrooms total_bathrooms : ℚ) : String :=
  spec_label ((["Square_Footage", "Bedrooms", "Total_Bathrooms"].zip
      [square_footage, bedrooms, total_bathrooms]).filterMap
    (fun fv => (lookupStat ranges fv.1).map
      (fun stats => spec_point (spec_z_score fv.2 stats.mean stats.std))))

/-!
Concrete objects used by counterexamples and witnesses.
-/

/-- A concrete linear model, standing for the artifact stored in
a.joblib. -/
def modelA : Model := { c1 := 1, c2 := 0, c3 := 0, intercept := 0 }

/-- A second, distinct concrete model, stored in b.joblib. -/
def modelB : Model := { c1 := 2, c2 := 0, c3 := 0, intercept := 0 }

/-- A file system holding two deserializable models and a metadata file
whose JSON is malformed (json.load raises). -/
def fsCex : FS :=
  { joblib_load := fun p =>
      if p = "a.joblib" then Except.ok modelA
      else if p = "b.joblib" then Except.ok modelB
      else Except.error "file not found"
    pickle_load := fun _ => Except.error "file not found"
    path_exists := fun _ => true
    json_load := fun _ =>
      Except.error "Expecting value: line 1 column 1 (char 0)" }

/-- A state with modelA loaded and no metadata. -/
def stateA : AppState :=
  { loaded_model := some modelA, model_metadata := none, model_info := none }

/-- Concrete per-feature statistics for witnesses. -/
def statsW : FeatureStats := { min := 0, max := 4000, mean := 2000, std := 500 }

/-- Concrete metadata carrying statistics for one feature. -/
def mdW : ModelMetadata :=
  { feature_ranges := some [("Square_Footage", statsW)]
    r2_score := none, rmse := none, mae := none, training_samples := none }

/-!
Helper lemmas shared by the claim theorems.
-/

/-- Comparison of numeric values reduces to rational comparison. -/
theorem val_le_num (a b : ℚ) : Val.le (Val.num a) (Val.num b) = decide (a ≤ b) := rfl

/-- On numeric input the code's z-score equals the spec's z-score. -/
theorem z_score_num (v mean std : ℚ) :
    z_score (Val.num v) mean std = Val.num (spec_z_score v mean std) := by
  unfold z_score spec_z_score
  split_ifs with h
  · simp only [Val.sub, Val.div, Val.abs, abs_div, abs_of_pos h]
  · rfl

/-- On numeric input the code's point score equals the spec's point
score. -/
theorem confidence_point_num (z : ℚ) :
    confidence_point (Val.num z) = spec_point z := by
  unfold confidence_point spec_point
  simp only [val_le_num, decide_eq_true_eq]

/-- The NaN z-score: comparisons with NaN are all false, so the
threshold chain falls through to 0.3. -/
theorem confidence_point_nan : confidence_point Val.nan = 3/10 := rfl

/-- Passing the positivity validation: a value that is NaN or a
positive number makes the check `value <= 0` false. -/
theorem val_le_zero_false (v : Val)
    (h : v = Val.nan ∨ ∃ q, v = Val.num q ∧ 0 < q) :
    Val.le v (Val.num 0) = false := by
  rcases h with h | ⟨q, rfl, hq⟩
  · subst h; rfl
  · simp [Val.le, not_le, hq]

/-- The spec's point-score table is antitone in the z-score. -/
theorem spec_point_antitone {a b : ℚ} (h : a ≤ b) :
    spec_point b ≤ spec_point a := by
  unfold spec_point
  split_ifs <;> linarith

/-- C1 (counterexample). With no model loaded, a call whose features
are all non-positive fails with the no-model error and not with the
validation error: the claim's "regardless of whether a model is
currently loaded" does not hold, because app.py line 84 tests the model
slot before the positivity check of line 88. -/
theorem nonpositive_without_model_gives_no_model_error :
    predict_price emptyState (Val.num (-1)) (Val.num (-1)) (Val.num (-1)) =
      (none, some "No model loaded. Please load a model first.") ∧
    (predict_price emptyState (Val.num (-1)) (Val.num (-1)) (Val.num (-1))).2 ≠
      some "All values must be positive numbers." := by
  decide

/-- C1 (amended). For every call made while some model is loaded, if
any of the three features is ≤ 0 then predict_price fails with the
validation error "All values must be positive numbers.", returning no
result, whichever model is loaded and whatever the metadata. -/
theorem invalid_input_error_with_model_loaded (st : AppState) (m : Model)
    (sq bd bt : ℚ) (hm : st.loaded_model = some m)
    (h : sq ≤ 0 ∨ bd ≤ 0 ∨ bt ≤ 0) :
    predict_price st (Val.num sq) (Val.num bd) (Val.num bt) =
      (none, some "All values must be positive numbers.") := by
  have hc : (Val.le (Val.num sq) (Val.num 0) || Val.le (Val.num bd) (Val.num 0)
      || Val.le (Val.num bt) (Val.num 0)) = true := by
    rcases h with h | h | h <;> simp [Val.le, h]
  simp only [predict_price, hm, hc, if_true]

/-- C1 (amended) witness at a loaded state with a zero bedroom
count. -/
theorem invalid_input_error_with_model_loaded_witness :
    stateA.loaded_model = some modelA ∧ ((2000 : ℚ) ≤ 0 ∨ (0 : ℚ) ≤ 0 ∨ (2 : ℚ) ≤ 0) ∧
    predict_price stateA (Val.num 2000) (Val.num 0) (Val.num 2) =
      (none, some "All values must be positive numbers.") :=
  ⟨rfl, Or.inr (Or.inl le_rfl),
    invalid_input_error_with_model_loaded stateA modelA 2000 0 2 rfl
      (Or.inr (Or.inl le_rfl))⟩

/-- C4. For all strictly positive inputs, if no model is loaded the
call fails with the distinct no-model error and produces no result;
the outcome does not depend on anything but the empty model slot, so
no prediction computation is performed. -/
theorem no_model_error_on_positive_input (st : AppState)
    (sq bd bt : ℚ) (hm : st.loaded_model = none)
    (h1 : 0 < sq) (h2 : 0 < bd) (h3 : 0 < bt) :
    predict_price st (Val.num sq) (Val.num bd) (Val.num bt) =
      (none, some "No model loaded. Please load a model first.") := by
  simp only [predict_price, hm]

/-- C4 witness at the initial state. -/
theorem no_model_error_on_positive_input_witness :
    emptyState.loaded_model = none ∧ (0 : ℚ) < 2000 ∧
    predict_price emptyState (Val.num 2000) (Val.num 3) (Val.num 2) =
      (none, some "No model loaded. Please load a model first.") :=
  ⟨rfl, by decide,
    no_model_error_on_positive_input emptyState 2000 3 2 rfl
      (by decide) (by decide) (by decide)⟩

/-- C5. The z-score bucketing of app.py lines 135-145 is monotonic:
with a fixed mean and fixed std > 0, a value with smaller or equal
absolute deviation from the mean never receives a smaller point
score. -/
theorem confidence_point_antitone_in_deviation (mean std v1 v2 : ℚ)
    (hstd : 0 < std) (h : |v1 - mean| ≤ |v2 - mean|) :
    confidence_point (z_score (Val.num v2) mean std) ≤
      confidence_point (z_score (Val.num v1) mean std) := by
  rw [z_score_num, z_score_num, confidence_point_num, confidence_point_num]
  unfold spec_z_score
  rw [if_pos hstd, if_pos hstd]
  have hz : |v1 - mean| / std ≤ |v2 - mean| / std := by gcongr
  exact spec_point_antitone hz

/-- C5 witness: deviations 0 and 1600 under std 500. -/
theorem confidence_point_antitone_in_deviation_witness :
    (0 : ℚ) < 500 ∧ |(2000 : ℚ) - 2000| ≤ |(3600 : ℚ) - 2000| ∧
    confidence_point (z_score (Val.num 3600) 2000 500) ≤
      confidence_point (z_score (Val.num 2000) 2000 500) :=
  ⟨by decide, by simp,
    confidence_point_antitone_in_deviation 2000 500 2000 3600
      (by decide) (by simp)⟩

/-- C10. With a model loaded, a NaN feature passes the positivity
validation, because the check `value <= 0` of app.py line 88 is false
for NaN: the call does not fail with the validation error (it fails
with no error at all) and the model's prediction operation is invoked
with the NaN-carrying feature vector, its value becoming the
predicted price. -/
theorem nan_input_passes_validation (st : AppState) (m : Model)
    (v1 v2 v3 : Val) (hm : st.loaded_model = some m)
    (h1 : v1 = Val.nan ∨ ∃ q, v1 = Val.num q ∧ 0 < q)
    (h2 : v2 = Val.nan ∨ ∃ q, v2 = Val.num q ∧ 0 < q)
    (h3 : v3 = Val.nan ∨ ∃ q, v3 = Val.num q ∧ 0 < q)
    (hnan : v1 = Val.nan ∨ v2 = Val.nan ∨ v3 = Val.nan) :
    (predict_price st v1 v2 v3).2 ≠ some "All values must be positive numbers." ∧
    (predict_price st v1 v2 v3).2 = none ∧
    ((predict_price st v1 v2 v3).1.map PredictionResult.predicted_price) =
      some (m.predict v1 v2 v3) ∧
    m.predict v1 v2 v3 = Val.nan := by
  have e1 := val_le_zero_false v1 h1
  have e2 := val_le_zero_false v2 h2
  have e3 := val_le_zero_false v3 h3
  have hpred : m.predict v1 v2 v3 = Val.nan := by
    rcases hnan with rfl | rfl | rfl
    · rfl
    · rcases h1 with rfl | ⟨q, rfl, -⟩ <;> rfl
    · rcases h1 with rfl | ⟨q, rfl, -⟩ <;> rcases h2 with rfl | ⟨r, rfl, -⟩ <;> rfl
  refine ⟨?_, ?_, ?_, hpred⟩ <;>
    simp [predict_price, hm, e1, e2, e3]

/-- C10 witness: NaN square footage with positive bedroom and bathroom
counts against a loaded model. -/
theorem nan_input_passes_validation_witness :
    stateA.loaded_model = some modelA ∧
    (predict_price stateA Val.nan (Val.num 3) (Val.num 2)).2 ≠
      some "All values must be positive numbers." ∧
    (predict_price stateA Val.nan (Val.num 3) (Val.num 2)).2 = none ∧
    ((predict_price stateA Val.nan (Val.num 3) (Val.num 2)).1.map
      PredictionResult.predicted_price) = some (modelA.predict Val.nan (Val.num 3) (Val.num 2)) ∧
    modelA.predict Val.nan (Val.num 3) (Val.num 2) = Val.nan :=
  ⟨rfl, (nan_input_passes_validation stateA modelA Val.nan (Val.num 3) (Val.num 2) rfl
    (Or.inl rfl) (Or.inr ⟨3, rfl, by decide⟩) (Or.inr ⟨2, rfl, by decide⟩) (Or.inl rfl))⟩

/-- Field projections of the regenerated model_info dict. -/
theorem makeModelInfo_fields (st : AppState) (p : String) (mp : Option String)
    (now : String) :
    (makeModelInfo st p mp now).model_path = p ∧
    (makeModelInfo st p mp now).loaded_at = now ∧
    (makeModelInfo st p mp now).metadata_path = mp := by
  unfold makeModelInfo
  cases st.model_metadata <;> exact ⟨rfl, rfl, rfl⟩

/-- State shape after a successful load: the info snapshot names the
loaded path and timestamp, and the model slot holds the model
deserialized from that path. -/
theorem load_success_state (fs : FS) (now : String) (st : AppState)
    (p : String) (mp : Option String)
    (h : (load_model_from_file fs now st p mp).2.1 = true) :
    ((load_model_from_file fs now st p mp).1.model_info.map ModelInfo.model_path)
      = some p ∧
    ((load_model_from_file fs now st p mp).1.model_info.map ModelInfo.loaded_at)
      = some now ∧
    (load_model_from_file fs now st p mp).1.loaded_model = (deserialize fs p).toOption ∧
    ((load_model_from_file fs now st p mp).1.loaded_model).isSome = true := by
  unfold load_model_from_file at h ⊢
  cases hd : deserialize fs p with
  | error e => rw [hd] at h; simp at h
  | ok m =>
    rw [hd] at h
    cases mp with
    | none =>
      obtain ⟨h1, h2, -⟩ := makeModelInfo_fields
        { st with loaded_model := some m, model_metadata := none } p none now
      simp [h1, h2, Except.toOption]
    | some s =>
      by_cases hex : fs.path_exists s
      · cases hj : fs.json_load s with
        | error e => simp [hex, hj] at h
        | ok md =>
          obtain ⟨h1, h2, -⟩ := makeModelInfo_fields
            { st with loaded_model := some m, model_metadata := some md } p (some s) now
          simp [hex, hj, h1, h2, Except.toOption]
      · obtain ⟨h1, h2, -⟩ := makeModelInfo_fields
          { st with loaded_model := some m, model_metadata := none } p (some s) now
        simp [hex, h1, h2, Except.toOption]

/-- C2 (counterexample). A load operation can end with model_info
describing a different model than the one in the current-model slot:
load a.joblib successfully, then load b.joblib with a metadata file
whose JSON is malformed.  The second call reports failure after the
assignment of app.py line 42 has already replaced loaded_model with
the b.joblib model, while model_info still names a.joblib, whose
artifact is a different model. -/
theorem model_info_inconsistent_after_failed_load :
    (let r1 := load_model_from_file fsCex "t1" emptyState "a.joblib" none;
     let r2 := load_model_from_file fsCex "t2" r1.1 "b.joblib" (some "b_metadata.json");
     r2.2.1 = false ∧
     r2.1.loaded_model = some modelB ∧
     (r2.1.model_info.map ModelInfo.model_path) = some "a.joblib" ∧
     (deserialize fsCex "a.joblib").toOption = some modelA ∧
     modelA ≠ modelB) := by
  decide

/-- C2 (amended). After every successful load, model_info is
regenerated and is consistent with the currently active model: it
names the path and timestamp of that load and the model slot holds
exactly the artifact deserialized from that path.  A failed load does
not regenerate model_info, and when model deserialization succeeded
but metadata loading then failed, the already-replaced loaded_model
can disagree with the stale model_info. -/
theorem model_info_consistent_after_successful_load (fs : FS) (now : String)
    (st : AppState) (p : String) (mp : Option String)
    (h : (load_model_from_file fs now st p mp).2.1 = true) :
    ((load_model_from_file fs now st p mp).1.model_info.map ModelInfo.model_path)
      = some p ∧
    ((load_model_from_file fs now st p mp).1.model_info.map ModelInfo.loaded_at)
      = some now ∧
    (load_model_from_file fs now st p mp).1.loaded_model = (deserialize fs p).toOption := by
  obtain ⟨h1, h2, h3, -⟩ := load_success_state fs now st p mp h
  exact ⟨h1, h2, h3⟩

/-- C2 (amended) witness: a successful load of a.joblib. -/
theorem model_info_consistent_after_successful_load_witness :
    (load_model_from_file fsCex "t1" emptyState "a.joblib" none).2.1 = true ∧
    ((load_model_from_file fsCex "t1" emptyState "a.joblib" none).1.model_info.map
      ModelInfo.model_path) = some "a.joblib" ∧
    ((load_model_from_file fsCex "t1" emptyState "a.joblib" none).1.model_info.map
      ModelInfo.loaded_at) = some "t1" ∧
    (load_model_from_file fsCex "t1" emptyState "a.joblib" none).1.loaded_model =
      (deserialize fsCex "a.joblib").toOption :=
  ⟨by decide,
    model_info_consistent_after_successful_load fsCex "t1" emptyState "a.joblib" none
      (by decide)⟩

/-- C3. For numeric inputs and any metadata carrying per-feature
statistics, calculate_confidence computes exactly the spec's
algorithm: per-feature absolute z-scores (0 when std is not positive),
the fixed 0.9/0.7/0.5/0.3 threshold table, the average over the
features that had statistics, the High/Medium/Low cut at 0.8 and 0.6,
and Unknown when no feature had usable statistics. -/
theorem calculate_confidence_refines_spec (md : ModelMetadata)
    (ranges : List (String × FeatureStats)) (sq bd bt : ℚ)
    (h : md.feature_ranges = some ranges) :
    calculate_confidence (some md) (Val.num sq) (Val.num bd) (Val.num bt) =
      spec_confidence ranges sq bd bt := by
  rcases hl1 : lookupStat ranges "Square_Footage" with _ | s1 <;>
  rcases hl2 : lookupStat ranges "Bedrooms" with _ | s2 <;>
  rcases hl3 : lookupStat ranges "Total_Bathrooms" with _ | s3 <;>
    simp [calculate_confidence, spec_confidence, spec_label, h, hl1, hl2, hl3,
          z_score_num, confidence_point_num]

/-- C3 witness: statistics for the square footage feature only, the
input sitting on the mean. -/
theorem calculate_confidence_refines_spec_witness :
    mdW.feature_ranges = some [("Square_Footage", statsW)] ∧
    calculate_confidence (some mdW) (Val.num 2000) (Val.num 3) (Val.num 2) =
      spec_confidence [("Square_Footage", statsW)] 2000 3 2 :=
  ⟨rfl,
    calculate_confidence_refines_spec mdW [("Square_Footage", statsW)] 2000 3 2 rfl⟩

/-- C6. The confidence label is Unknown whenever no metadata was
loaded: directly for absent metadata or metadata without the
feature_ranges table, and as the label attached to a successful
prediction in a state without metadata; and a load given no usable
metadata path still succeeds whenever the model itself
deserializes. -/
theorem unknown_confidence_without_metadata :
    (∀ v1 v2 v3 : Val, calculate_confidence none v1 v2 v3 = "Unknown") ∧
    (∀ (md : ModelMetadata) (v1 v2 v3 : Val), md.feature_ranges = none →
      calculate_confidence (some md) v1 v2 v3 = "Unknown") ∧
    (∀ (st : AppState) (m : Model) (sq bd bt : ℚ), st.loaded_model = some m →
      st.model_metadata = none → 0 < sq → 0 < bd → 0 < bt →
      ((predict_price st (Val.num sq) (Val.num bd) (Val.num bt)).1.map
        PredictionResult.confidence) = some "Unknown") ∧
    (∀ (fs : FS) (now : String) (st : AppState) (p : String) (m : Model)
      (mp : Option String), deserialize fs p = Except.ok m →
      (mp = none ∨ ∃ s, mp = some s ∧ fs.path_exists s = false) →
      (load_model_from_file fs now st p mp).2.1 = true ∧
      (load_model_from_file fs now st p mp).2.2 = "Model loaded successfully!") := by
  refine ⟨fun v1 v2 v3 => rfl, ?_, ?_, ?_⟩
  · intro md v1 v2 v3 h
    simp [calculate_confidence, h]
  · intro st m sq bd bt hm hmd hsq hbd hbt
    have e1 : Val.le (Val.num sq) (Val.num 0) = false := by simp [Val.le, not_le, hsq]
    have e2 : Val.le (Val.num bd) (Val.num 0) = false := by simp [Val.le, not_le, hbd]
    have e3 : Val.le (Val.num bt) (Val.num 0) = false := by simp [Val.le, not_le, hbt]
    simp [predict_price, hm, hmd, e1, e2, e3, calculate_confidence]
  · intro fs now st p m mp hdes hmp
    unfold load_model_from_file
    rw [hdes]
    rcases hmp with rfl | ⟨s, rfl, hs⟩
    · exact ⟨rfl, rfl⟩
    · simp [hs]

/-- C6 witness: a loaded model without metadata labels a valid
prediction Unknown, and a metadata-less load of a.joblib succeeds. -/
theorem unknown_confidence_without_metadata_witness :
    stateA.model_metadata = none ∧
    ((predict_price stateA (Val.num 2000) (Val.num 3) (Val.num 2)).1.map
      PredictionResult.confidence) = some "Unknown" ∧
    deserialize fsCex "a.joblib" = Except.ok modelA ∧
    (load_model_from_file fsCex "t1" emptyState "a.joblib" none).2.1 = true :=
  ⟨rfl,
    unknown_confidence_without_metadata.2.2.1 stateA modelA 2000 3 2 rfl rfl
      (by decide) (by decide) (by decide),
    rfl,
    (unknown_confidence_without_metadata.2.2.2 fsCex "t1" emptyState "a.joblib"
      modelA none rfl (Or.inl rfl)).1⟩

/-- C7. Round-trip: after a successful load of a path, requesting
model info succeeds and returns a ModelInfo whose model_path equals
the path just loaded. -/
theorem model_info_roundtrip (fs : FS) (now : String) (st : AppState)
    (p : String) (mp : Option String)
    (h : (load_model_from_file fs now st p mp).2.1 = true) :
    (api_model_info (load_model_from_file fs now st p mp).1).1 = true ∧
    ((api_model_info (load_model_from_file fs now st p mp).1).2.1.map
      ModelInfo.model_path) = some p := by
  obtain ⟨hpath, -, -, hsome⟩ := load_success_state fs now st p mp h
  cases hl : (load_model_from_file fs now st p mp).1.loaded_model with
  | none => rw [hl] at hsome; simp at hsome
  | some m => exact ⟨by simp [api_model_info, hl], by simp [api_model_info, hl, hpath]⟩

/-- C7 witness: the round-trip at a successful load of a.joblib. -/
theorem model_info_roundtrip_witness :
    (load_model_from_file fsCex "t1" emptyState "a.joblib" none).2.1 = true ∧
    ((api_model_info (load_model_from_file fsCex "t1" emptyState "a.joblib" none).1).2.1.map
      ModelInfo.model_path) = some "a.joblib" :=
  ⟨by decide,
    (model_info_roundtrip fsCex "t1" emptyState "a.joblib" none (by decide)).2⟩

/-- C8. For every model path ending neither in .joblib nor in .pkl,
load_model_from_file reports failure (it does not raise), leaves the
globals untouched, and the message carries the unsupported-format
error text. -/
theorem unsupported_format_reports_failure (fs : FS) (now : String)
    (st : AppState) (p : String) (mp : Option String)
    (h1 : endswith p ".joblib" = false) (h2 : endswith p ".pkl" = false) :
    load_model_from_file fs now st p mp =
      (st, false,
        "Error loading model: Unsupported model file format. Use .joblib or .pkl") := by
  unfold load_model_from_file deserialize
  simp [h1, h2]

/-- C8 witness: a .txt path. -/
theorem unsupported_format_reports_failure_witness :
    endswith "model.txt" ".joblib" = false ∧ endswith "model.txt" ".pkl" = false ∧
    load_model_from_file fsCex "t1" emptyState "model.txt" none =
      (emptyState, false,
        "Error loading model: Unsupported model file format. Use .joblib or .pkl") :=
  ⟨by decide, by decide,
    unsupported_format_reports_failure fsCex "t1" emptyState "model.txt" none
      (by decide) (by decide)⟩

/-- C9. Every prediction result carries as formatted_price exactly the
currency rendering of its predicted_price (two decimals, thousands
separators, a dollar prefix), and in particular a raw prediction of
452301.7 is formatted as dollar-sign 452,301.70. -/
theorem currency_formatting (st : AppState) (v1 v2 v3 : Val) :
    ((predict_price st v1 v2 v3).1.map PredictionResult.formatted_price) =
      ((predict_price st v1 v2 v3).1.map
        (fun r => formatCurrency r.predicted_price)) ∧
    formatCurrency (Val.num (4523017/10)) = "$452,301.70" := by
  constructor
  · unfold predict_price
    cases st.loaded_model with
    | none => rfl
    | some m =>
      cases hb : (Val.le v1 (Val.num 0) || Val.le v2 (Val.num 0)
        || Val.le v3 (Val.num 0)) <;> simp [hb]
  · have habs : |(4523017/10 : ℚ)| * 100 = (45230170 : ℚ) := by
      rw [abs_of_pos (by norm_num : (0:ℚ) < 4523017/10)]
      norm_num
    have hfloor : ⌊(45230170 : ℚ)⌋ = 45230170 := by norm_num
    have hround : roundHalfEven (|(4523017/10 : ℚ)| * 100) = 45230170 := by
      simp only [roundHalfEven, habs, hfloor]
      norm_num
    show "$" ++ pyFormat2f (4523017/10) = _
    simp only [pyFormat2f, hround]
    rw [if_neg (by norm_num : ¬ ((4523017/10 : ℚ) < 0))]
    decide
